import Mathlib

/-
Shallow embedding of the alerting, action-dispatch and indicator-evaluation
core of the fuel-canary-watchtower repository.

Sources embedded:
  src/alerter.rs            (WatchtowerAlerter, handle_alert, worker loop)
  src/ethereum_actions.rs   (WatchtowerEthereumActions, pause_contract, handle_action)
  src/ethereum_watcher.rs   (check_chain_connection, check_invalid_commits,
                             watermark initialization in start_ethereum_watcher)
  src/ethereum_watcher/state_contract.rs   (StateContract::pause)
  src/ethereum_watcher/portal_contract.rs  (PortalContract::pause)
  src/ethereum_watcher/gateway_contract.rs (GatewayContract::pause)

Times (std::time::Instant / SystemTime) are modelled as Nat instants;
Duration as a Nat; network calls as Except String results supplied as inputs.
-/

namespace Watchtower

/-- Alert severity levels, from alerter.rs (enum AlertLevel). -/
inductive AlertLevel
  | none
  | info
  | warn
  | error
deriving DecidableEq, Repr

/-- Alert categories. The union of the AlertType variants declared in
alerter.rs and the additional variants referenced by ethereum_actions.rs
(the dedup cache is keyed on this enum). -/
inductive AlertType
  | FuelConnection
  | FuelBlockProduction
  | FuelPortalWithdraw
  | FuelGatewayWithdraw
  | EthereumChainWatching
  | EthereumConnection
  | EthereumBlockProduction
  | EthereumAccountFunds
  | EthereumInvalidStateCommit
  | EthereumPortalDeposit
  | EthereumPortalWithdrawal
  | EthereumGatewayDeposit
  | EthereumGatewayWithdrawal
  | EthereumTryPauseContract
  | EthereumSuccessPauseContract
  | EthereumFailPauseContract
  | EthereumTimeoutPauseContract
  | EthereumActionsThreadFailed
deriving DecidableEq, Repr

/-- AlertParams from alerter.rs: the message sent through the alert queue. -/
structure AlertParams where
  text : String
  level : AlertLevel
  alert_type : AlertType
deriving DecidableEq, Repr

/-- EthereumAction from ethereum_actions.rs. -/
inductive EthereumAction
  | none
  | pauseState
  | pauseGateway
  | pausePortal
  | pauseAll
deriving DecidableEq, Repr

/-- ActionParams from ethereum_actions.rs: the message sent through the
action queue. -/
structure ActionParams where
  action : EthereumAction
  alert_level : AlertLevel
deriving DecidableEq, Repr

/-- The dedup cache HashMap of alerter.rs, modelled as an association list
from AlertType to the expiry Instant (a Nat). -/
abbrev AlertCache := List (AlertType × Nat)

/-- HashMap lookup on the association-list model (first match wins; the
insert below keeps at most one entry per key). -/
def cacheLookup (c : AlertCache) (k : AlertType) : Option Nat :=
  match c with
  | [] => Option.none
  | (k2, v) :: rest => if k2 = k then Option.some v else cacheLookup rest k

/-- HashMap::insert on the association-list model: replaces any existing
entry for the key. -/
def cacheInsert (c : AlertCache) (k : AlertType) (v : Nat) : AlertCache :=
  (k, v) :: c.filter (fun e => e.1 ≠ k)

/-- cache.retain over non-expired entries (alerter.rs line 123:
retain keeps entries with now < expiry). -/
def cacheRetainLive (c : AlertCache) (now : Nat) : AlertCache :=
  c.filter (fun e => now < e.2)

/-- Severity strings mapped from alert levels in handle_alert
(the None arm early-returns in the source, so its string is never used). -/
def pagerduty_severity : AlertLevel → String
  | AlertLevel.info => "info"
  | AlertLevel.warn => "warning"
  | AlertLevel.error => "critical"
  | AlertLevel.none => ""

/-- Observable outcome of one handle_alert call: the updated dedup cache,
the pages sent to PagerDuty (severity, text), the local log writes
(level, text) and any actions dispatched (the alerter never dispatches
actions; the field records that fact). -/
structure HandleAlertResult where
  cache : AlertCache
  pages : List (String × String)
  logs : List (AlertLevel × String)
  dispatched_actions : List ActionParams
deriving DecidableEq, Repr

/-- WatchtowerAlerter::handle_alert from alerter.rs (lines 111-156).
now models Instant::now() inside the call; system_now models
SystemTime::now() at the PagerDuty gate; the Rust match with an early
return on AlertLevel::None is rendered as the level-None conditional. -/
def handle_alert (params : AlertParams) (cache : AlertCache) (now : Nat)
    (system_now : Nat) (alert_cache_expiry : Nat)
    (allowed_alerting_start_time : Nat) : HandleAlertResult :=
  let cache1 := cacheRetainLive cache now
  let fresh : Bool :=
    match cacheLookup cache1 params.alert_type with
    | Option.none => true
    | Option.some expiry => decide (expiry ≤ now)
  if fresh then
    let cache2 := cacheInsert cache1 params.alert_type (now + alert_cache_expiry)
    if params.level = AlertLevel.none then
      { cache := cache2, pages := [], logs := [], dispatched_actions := [] }
    else
      let pages :=
        if allowed_alerting_start_time ≤ system_now ∧
            (params.level = AlertLevel.warn ∨ params.level = AlertLevel.error) then
          [(pagerduty_severity params.level, params.text)]
        else []
      { cache := cache2, pages := pages,
        logs := [(params.level, params.text)], dispatched_actions := [] }
  else
    { cache := cache1, pages := [],
      logs :=
        if params.level = AlertLevel.none then []
        else [(params.level, params.text)],
      dispatched_actions := [] }

/-- The configuration fields consumed by WatchtowerAlerter::new. -/
structure AlerterConfig where
  alert_cache_expiry : Nat
  min_duration_from_start_to_err : Nat
deriving DecidableEq, Repr

/-- The state constructed by WatchtowerAlerter::new (alerter.rs lines
64-84): empty cache, the configured expiry, and the alerting start time
fixed once at construction. -/
structure WatchtowerAlerter where
  alert_cache : AlertCache
  alert_cache_expiry : Nat
  allowed_alerting_start_time : Nat
deriving DecidableEq, Repr

/-- WatchtowerAlerter::new: system_now models SystemTime::now() at
construction. -/
def WatchtowerAlerter.new (config : AlerterConfig) (system_now : Nat) :
    WatchtowerAlerter :=
  { alert_cache := [],
    alert_cache_expiry := config.alert_cache_expiry,
    allowed_alerting_start_time :=
      system_now + config.min_duration_from_start_to_err }

/-- Observable effects a consumer worker can produce when its channel has
closed (all producers dropped). terminateProcess is expressible so the
absence of process termination in the code is a provable fact. -/
inductive WorkerEffect
  | logError (msg : String)
  | alertSend (text : String) (level : AlertLevel) (ty : AlertType)
  | taskPanic (msg : String)
  | terminateProcess
deriving DecidableEq, Repr

/-- THREAD_CONNECTIONS_ERR from ethereum_actions.rs. -/
def THREAD_CONNECTIONS_ERR : String :=
  "Connections to the ethereum actions thread have all closed."

/-- What the alert consumer of start_alert_handling_thread (alerter.rs
lines 87-108) does once rx.recv() returns None: the while-let loop ends
and the spawned task body finishes with no further statement. -/
def alert_worker_on_channel_closed : List WorkerEffect := []

/-- What the action consumer of start_action_handling_thread
(ethereum_actions.rs lines 87-114) does once rx.recv() returns None:
send_alert of THREAD_CONNECTIONS_ERR at Error level, then a panic of the
spawned task. -/
def action_worker_on_channel_closed : List WorkerEffect :=
  [WorkerEffect.alertSend THREAD_CONNECTIONS_ERR AlertLevel.error
      AlertType.EthereumActionsThreadFailed,
   WorkerEffect.taskPanic THREAD_CONNECTIONS_ERR]

/-- Result of tokio::time::timeout(30s, capability.pause()) in
pause_contract: completed Ok, completed Err with a message, or elapsed. -/
inductive PauseOutcome
  | ok
  | err (msg : String)
  | timeout
deriving DecidableEq, Repr

/-- The fixed timeout (seconds) used by pause_contract
(ethereum_actions.rs line 133). -/
def pause_timeout_seconds : Nat := 30

/-- WatchtowerEthereumActions::pause_contract (ethereum_actions.rs lines
116-163): the alerts it sends, in order, given the awaited outcome. -/
def pause_contract (contract_name : String) (outcome : PauseOutcome)
    (alert_level : AlertLevel) : List AlertParams :=
  { text := "Pausing " ++ contract_name ++ " contract.",
    level := AlertLevel.info,
    alert_type := AlertType.EthereumTryPauseContract } ::
  (match outcome with
   | PauseOutcome.ok =>
     [{ text := "Successfully paused " ++ contract_name ++ " contract.",
        level := AlertLevel.info,
        alert_type := AlertType.EthereumSuccessPauseContract }]
   | PauseOutcome.err e =>
     [{ text := e, level := alert_level,
        alert_type := AlertType.EthereumFailPauseContract }]
   | PauseOutcome.timeout =>
     [{ text := "Timeout while pausing " ++ contract_name ++ " contract.",
        level := alert_level,
        alert_type := AlertType.EthereumTimeoutPauseContract }])

/-- WatchtowerEthereumActions::handle_action (ethereum_actions.rs lines
165-200). Inputs are the pause outcomes each contract capability would
produce; the result is the alert sequence sent and the ordered list of
contracts whose pause() was awaited. -/
def handle_action (action : EthereumAction)
    (state_outcome gateway_outcome portal_outcome : PauseOutcome)
    (alert_level : AlertLevel) : List AlertParams × List String :=
  match action with
  | EthereumAction.pauseState =>
    (pause_contract "state" state_outcome alert_level, ["state"])
  | EthereumAction.pauseGateway =>
    (pause_contract "gateway" gateway_outcome alert_level, ["gateway"])
  | EthereumAction.pausePortal =>
    (pause_contract "portal" portal_outcome alert_level, ["portal"])
  | EthereumAction.pauseAll =>
    (pause_contract "state" state_outcome alert_level ++
     pause_contract "gateway" gateway_outcome alert_level ++
     pause_contract "portal" portal_outcome alert_level,
     ["state", "gateway", "portal"])
  | EthereumAction.none => ([], [])

/-- Predicate selecting the outcome alerts of a pause attempt (success,
failure or elapsed), as opposed to the attempt-in-progress alert. -/
def is_outcome_alert (a : AlertParams) : Bool :=
  decide (a.alert_type = AlertType.EthereumSuccessPauseContract ∨
    a.alert_type = AlertType.EthereumFailPauseContract ∨
    a.alert_type = AlertType.EthereumTimeoutPauseContract)

/-- Result of one pause() call on a contract wrapper: the returned value
and whether the underlying on-chain call was made. -/
structure PauseCallResult where
  result : Except String Unit
  network_call_made : Bool
deriving Repr

/-- StateContract::new sets read_only from the configured wallet key
(state_contract.rs lines 37-44: read_only = key absent). -/
def state_contract_read_only (ethereum_wallet_key : Option String) : Bool :=
  ethereum_wallet_key.isNone

/-- StateContract::pause (state_contract.rs lines 105-117):
fail fast when read-only, otherwise perform the contract call whose
outcome is call_result. -/
def state_contract_pause (read_only : Bool)
    (call_result : Except String Unit) : PauseCallResult :=
  if read_only then
    { result := Except.error "Ethereum account not configured.",
      network_call_made := false }
  else
    match call_result with
    | Except.error e =>
      { result := Except.error ("Failed to pause state contract: " ++ e),
        network_call_made := true }
    | Except.ok _ => { result := Except.ok (), network_call_made := true }

/-- PortalContract::pause (portal_contract.rs lines 145-160): fail fast
when read-only, then match on the Option-valued contract field set by
initialize(): None means the contract was never initialized (no network
call); Some carries the outcome the on-chain pause call would produce. -/
def portal_contract_pause (read_only : Bool)
    (contract : Option (Except String Unit)) : PauseCallResult :=
  if read_only then
    { result := Except.error "Ethereum account not configured.",
      network_call_made := false }
  else
    match contract with
    | Option.some call_result =>
      match call_result with
      | Except.error e =>
        { result := Except.error ("Failed to pause portal contract: " ++ e),
          network_call_made := true }
      | Except.ok _ => { result := Except.ok (), network_call_made := true }
    | Option.none =>
      { result := Except.error "Contract not initialized",
        network_call_made := false }

/-- GatewayContract::pause (gateway_contract.rs lines 161-176): same
structure as the portal contract with its own failure text, including the
not-initialized arm of the match on the Option-valued contract field. -/
def gateway_contract_pause (read_only : Bool)
    (contract : Option (Except String Unit)) : PauseCallResult :=
  if read_only then
    { result := Except.error "Ethereum account not configured.",
      network_call_made := false }
  else
    match contract with
    | Option.some call_result =>
      match call_result with
      | Except.error e =>
        { result := Except.error ("Failed to pause gateway contract: " ++ e),
          network_call_made := true }
      | Except.ok _ => { result := Except.ok (), network_call_made := true }
    | Option.none =>
      { result := Except.error "Contract not initialized",
        network_call_made := false }

/-- Per-indicator configuration (config.rs GenericAlert): a level and an
action to dispatch on breach or probe failure. -/
structure GenericAlert where
  alert_level : AlertLevel
  alert_action : EthereumAction
deriving DecidableEq, Repr

/-- config.rs AccountFundsAlert (min_balance scaled to a Nat). -/
structure AccountFundsAlert where
  alert_level : AlertLevel
  alert_action : EthereumAction
  min_balance : Nat
deriving DecidableEq, Repr

/-- The fields of config.rs EthereumClientWatcher consumed by the two
checks embedded here (check_chain_connection, check_invalid_commits). -/
structure EthereumClientWatcher where
  connection_alert : GenericAlert
  account_funds_alert : AccountFundsAlert
  invalid_state_commit_alert : GenericAlert
deriving DecidableEq, Repr

/-- An alert as sent by the ethereum_watcher.rs revision of send_alert
(name, description, level). -/
structure WatcherAlert where
  name : String
  description : String
  level : AlertLevel
deriving DecidableEq, Repr

/-- Effects of one check_* call: alerts and actions pushed onto the two
queues, and whether the collaborator probe was invoked at all. -/
structure CheckResult where
  alerts : List WatcherAlert
  actions : List ActionParams
  probe_called : Bool
deriving DecidableEq, Repr

/-- check_chain_connection (ethereum_watcher.rs lines 35-58).
probe is the result of ethereum_chain.check_connection(). -/
def check_chain_connection (probe : Except String Unit)
    (watch_config : EthereumClientWatcher) : CheckResult :=
  if watch_config.connection_alert.alert_level = AlertLevel.none then
    { alerts := [], actions := [], probe_called := false }
  else
    match probe with
    | Except.error e =>
      { alerts := [{ name := "Failed to check ethereum connection",
                     description := "Failed to check ethereum connection: " ++ e,
                     level := watch_config.connection_alert.alert_level }],
        actions := [{ action := watch_config.connection_alert.alert_action,
                      alert_level := watch_config.connection_alert.alert_level }],
        probe_called := true }
    | Except.ok _ => { alerts := [], actions := [], probe_called := true }

/-- The collaborator results feeding one check_invalid_commits call:
state_contract.get_latest_commits, fuel_chain.verify_block_commit per
hash, and ethereum_chain.get_latest_block_number. -/
structure CommitProbes where
  get_latest_commits : Except String (List String)
  verify_block_commit : String → Except String Bool
  get_latest_block_number : Except String Nat

/-- Effects of one check_invalid_commits call, including the new value of
the last_commit_check_block watermark. -/
structure CommitCheckResult where
  alerts : List WatcherAlert
  actions : List ActionParams
  probe_called : Bool
  last_commit_check_block : Nat
deriving DecidableEq, Repr

/-- The per-hash body of the for loop in check_invalid_commits
(ethereum_watcher.rs lines 200-233). -/
def commit_item_effects (watch_config : EthereumClientWatcher)
    (probes : CommitProbes) (hash : String) :
    List WatcherAlert × List ActionParams :=
  match probes.verify_block_commit hash with
  | Except.ok valid =>
    if valid then ([], [])
    else
      ([{ name := "Invalid commit was made on the state contract",
          description :=
            "An invalid commit was made on the state contract. Hash: " ++ hash,
          level := watch_config.invalid_state_commit_alert.alert_level }],
       [{ action := watch_config.invalid_state_commit_alert.alert_action,
          alert_level := watch_config.invalid_state_commit_alert.alert_level }])
  | Except.error e =>
    ([{ name := "Failed to check fuel chain state commit contract",
        description := "Failed to check fuel chain state commit: " ++ e,
        level := watch_config.invalid_state_commit_alert.alert_level }],
     [{ action := watch_config.invalid_state_commit_alert.alert_action,
        alert_level := watch_config.invalid_state_commit_alert.alert_level }])

/-- check_invalid_commits (ethereum_watcher.rs lines 166-239). Note the
skip guard at line 176 reads account_funds_alert.alert_level, not
invalid_state_commit_alert.alert_level; the embedding reproduces that. -/
def check_invalid_commits (watch_config : EthereumClientWatcher)
    (probes : CommitProbes) (last_commit_check_block : Nat) :
    CommitCheckResult :=
  if watch_config.account_funds_alert.alert_level = AlertLevel.none then
    { alerts := [], actions := [], probe_called := false,
      last_commit_check_block := last_commit_check_block }
  else
    match probes.get_latest_commits with
    | Except.error e =>
      { alerts := [{ name := "Failed to check state contract",
                     description := "Failed to check state contract commits: " ++ e,
                     level := watch_config.invalid_state_commit_alert.alert_level }],
        actions := [{ action := watch_config.invalid_state_commit_alert.alert_action,
                      alert_level :=
                        watch_config.invalid_state_commit_alert.alert_level }],
        probe_called := true,
        last_commit_check_block := last_commit_check_block }
    | Except.ok hashes =>
      let per := hashes.map (commit_item_effects watch_config probes)
      { alerts := (per.map Prod.fst).flatten,
        actions := (per.map Prod.snd).flatten,
        probe_called := true,
        last_commit_check_block :=
          match probes.get_latest_block_number with
          | Except.ok block_num => block_num
          | Except.error _ => last_commit_check_block }

/-- COMMIT_CHECK_STARTING_OFFSET from ethereum_watcher.rs line 31
(seconds in 24 hours). -/
def COMMIT_CHECK_STARTING_OFFSET : Nat := 24 * 60 * 60

/-- ETHEREUM_BLOCK_TIME from ethereum_watcher.rs line 33. -/
def ETHEREUM_BLOCK_TIME : Nat := 12

/-- commit_start_block_offset as computed in start_ethereum_watcher
(ethereum_watcher.rs line 531). -/
def commit_start_block_offset : Nat :=
  COMMIT_CHECK_STARTING_OFFSET / ETHEREUM_BLOCK_TIME

/-- Initial last_commit_check_block in start_ethereum_watcher
(ethereum_watcher.rs lines 532-535), from the startup chain height. -/
def initial_commit_check_block (latest_block : Nat) : Nat :=
  max latest_block commit_start_block_offset - commit_start_block_offset

/-- Watermark evolution across a run of loop iterations, each iteration
fed by its own probe results. -/
def watermark_run (watch_config : EthereumClientWatcher) (w0 : Nat)
    (probe_seq : List CommitProbes) : Nat :=
  probe_seq.foldl
    (fun w p => (check_invalid_commits watch_config p w).last_commit_check_block)
    w0

/-- A configuration where the commit-validity indicator is administratively
disabled (invalid_state_commit_alert at None) while the account-funds
indicator stays at Warn. -/
def config_commit_disabled : EthereumClientWatcher :=
  { connection_alert :=
      { alert_level := AlertLevel.warn, alert_action := EthereumAction.none },
    account_funds_alert :=
      { alert_level := AlertLevel.warn, alert_action := EthereumAction.none,
        min_balance := 0 },
    invalid_state_commit_alert :=
      { alert_level := AlertLevel.none, alert_action := EthereumAction.pauseAll } }

/-- A configuration with every embedded indicator enabled at Warn. -/
def config_watch_active : EthereumClientWatcher :=
  { connection_alert :=
      { alert_level := AlertLevel.warn, alert_action := EthereumAction.none },
    account_funds_alert :=
      { alert_level := AlertLevel.warn, alert_action := EthereumAction.none,
        min_balance := 0 },
    invalid_state_commit_alert :=
      { alert_level := AlertLevel.warn, alert_action := EthereumAction.none } }

/-- Probe results where the state contract reports one commit that the
rollup chain rejects as not a real block. -/
def probes_invalid_commit : CommitProbes :=
  { get_latest_commits := Except.ok ["0xabc"],
    verify_block_commit := fun _ => Except.ok false,
    get_latest_block_number := Except.ok 5 }

/-- Probe results where the chain height probe answers a height of 0,
far below any running watermark. -/
def probes_height_drop : CommitProbes :=
  { get_latest_commits := Except.ok [],
    verify_block_commit := fun _ => Except.ok true,
    get_latest_block_number := Except.ok 0 }

/-- Probe results where the chain height probe fails. -/
def probes_height_err : CommitProbes :=
  { get_latest_commits := Except.ok [],
    verify_block_commit := fun _ => Except.ok true,
    get_latest_block_number := Except.error "rpc down" }

/-- Probe results where the chain height probe answers height 100. -/
def probes_height_100 : CommitProbes :=
  { get_latest_commits := Except.ok [],
    verify_block_commit := fun _ => Except.ok true,
    get_latest_block_number := Except.ok 100 }

/-- A Warn alert used as concrete witness input. -/
def alert_warn_a : AlertParams :=
  { text := "a", level := AlertLevel.warn,
    alert_type := AlertType.FuelConnection }

/-- An Error alert of the same category as alert_warn_a. -/
def alert_error_b : AlertParams :=
  { text := "b", level := AlertLevel.error,
    alert_type := AlertType.FuelConnection }

/-- A Warn alert used as concrete witness input for the grace period. -/
def alert_warn_w : AlertParams :=
  { text := "w", level := AlertLevel.warn,
    alert_type := AlertType.FuelConnection }

/-- A None-level alert used as concrete witness input. -/
def alert_none_n : AlertParams :=
  { text := "n", level := AlertLevel.none,
    alert_type := AlertType.EthereumConnection }

/-- An Error alert of the same category as alert_none_n. -/
def alert_error_e : AlertParams :=
  { text := "e", level := AlertLevel.error,
    alert_type := AlertType.EthereumConnection }

/- Helper lemmas about the dedup-cache model. -/

theorem cacheLookup_eq_none_of_keys_ne {c : AlertCache} {k : AlertType}
    (h : ∀ e ∈ c, e.1 ≠ k) : cacheLookup c k = Option.none := by
  induction c with
  | nil => rfl
  | cons x xs ih =>
    have hx : x.1 ≠ k := h x (List.mem_cons_self x xs)
    simp only [cacheLookup, if_neg hx]
    exact ih (fun e he => h e (List.mem_cons_of_mem x he))

theorem cacheLookup_mem {c : AlertCache} {k : AlertType} {v : Nat}
    (h : cacheLookup c k = Option.some v) : (k, v) ∈ c := by
  induction c with
  | nil => cases h
  | cons x xs ih =>
    by_cases hx : x.1 = k
    · simp only [cacheLookup, if_pos hx, Option.some.injEq] at h
      cases x with
      | mk k2 v2 =>
        simp only at hx h
        subst hx; subst h
        exact List.mem_cons_self _ _
    · simp only [cacheLookup, if_neg hx] at h
      exact List.mem_cons_of_mem x (ih h)

theorem cacheLookup_retainLive_lt {c : AlertCache} {now : Nat} {k : AlertType}
    {v : Nat} (h : cacheLookup (cacheRetainLive c now) k = Option.some v) :
    now < v := by
  have hm := cacheLookup_mem h
  have hp := (List.mem_filter.mp hm).2
  exact of_decide_eq_true hp

theorem cacheLookup_cons_self (c : AlertCache) (k : AlertType) (v : Nat) :
    cacheLookup ((k, v) :: c) k = Option.some v := by
  simp [cacheLookup]

theorem cacheLookup_cacheInsert_self (c : AlertCache) (k : AlertType) (v : Nat) :
    cacheLookup (cacheInsert c k v) k = Option.some v := by
  simp [cacheInsert, cacheLookup]

theorem cacheRetainLive_cons_keep (c : AlertCache) (k : AlertType) (v t : Nat)
    (h : t < v) :
    cacheRetainLive ((k, v) :: c) t = (k, v) :: cacheRetainLive c t := by
  simp [cacheRetainLive, List.filter_cons, h]

theorem cacheRetainLive_cons_drop (c : AlertCache) (k : AlertType) (v t : Nat)
    (h : ¬ t < v) :
    cacheRetainLive ((k, v) :: c) t = cacheRetainLive c t := by
  simp [cacheRetainLive, List.filter_cons, h]

theorem cacheRetainLive_cacheInsert_keep (c : AlertCache) (k : AlertType)
    (v t : Nat) (h : t < v) :
    cacheRetainLive (cacheInsert c k v) t =
      (k, v) :: cacheRetainLive (c.filter (fun e => e.1 ≠ k)) t := by
  unfold cacheInsert
  exact cacheRetainLive_cons_keep _ _ _ _ h

theorem cacheRetainLive_cacheInsert_drop (c : AlertCache) (k : AlertType)
    (v t : Nat) (h : ¬ t < v) :
    cacheRetainLive (cacheInsert c k v) t =
      cacheRetainLive (c.filter (fun e => e.1 ≠ k)) t := by
  unfold cacheInsert
  exact cacheRetainLive_cons_drop _ _ _ _ h

theorem cacheLookup_retainLive_filterNe (c : AlertCache) (k : AlertType)
    (t : Nat) :
    cacheLookup (cacheRetainLive (c.filter (fun e => e.1 ≠ k)) t) k =
      Option.none := by
  apply cacheLookup_eq_none_of_keys_ne
  intro e he
  have h1 : e ∈ c.filter (fun e => e.1 ≠ k) :=
    (List.mem_filter.mp he).1
  exact of_decide_eq_true (List.mem_filter.mp h1).2

/- Helper lemmas about handle_alert. -/

theorem handle_alert_fresh (params : AlertParams) (cache : AlertCache)
    (now system_now expiry allowed : Nat)
    (hfresh : cacheLookup (cacheRetainLive cache now) params.alert_type =
      Option.none)
    (hne : params.level ≠ AlertLevel.none) :
    handle_alert params cache now system_now expiry allowed =
      { cache := cacheInsert (cacheRetainLive cache now) params.alert_type
          (now + expiry),
        pages :=
          if allowed ≤ system_now ∧
              (params.level = AlertLevel.warn ∨
                params.level = AlertLevel.error) then
            [(pagerduty_severity params.level, params.text)]
          else [],
        logs := [(params.level, params.text)],
        dispatched_actions := [] } := by
  simp only [handle_alert, hfresh]
  simp [hne]

theorem handle_alert_dup (params : AlertParams) (cache : AlertCache)
    (now system_now expiry allowed e : Nat)
    (hlook : cacheLookup (cacheRetainLive cache now) params.alert_type =
      Option.some e)
    (hlive : now < e) :
    handle_alert params cache now system_now expiry allowed =
      { cache := cacheRetainLive cache now, pages := [],
        logs :=
          if params.level = AlertLevel.none then []
          else [(params.level, params.text)],
        dispatched_actions := [] } := by
  have hd : ¬ e ≤ now := Nat.not_le.mpr hlive
  simp only [handle_alert, hlook]
  simp [hd]

theorem handle_alert_fresh_cache (params : AlertParams) (cache : AlertCache)
    (now system_now expiry allowed : Nat)
    (hfresh : cacheLookup (cacheRetainLive cache now) params.alert_type =
      Option.none) :
    (handle_alert params cache now system_now expiry allowed).cache =
      cacheInsert (cacheRetainLive cache now) params.alert_type
        (now + expiry) := by
  simp only [handle_alert, hfresh]
  split
  · split <;> rfl
  · simp_all

/- Claim theorems. -/

/-- C1: the indicator-disablement claim is broken by check_invalid_commits:
its skip guard reads account_funds_alert.alert_level instead of its own
invalid_state_commit_alert.alert_level, so with the commit-validity
indicator configured at None (and account funds at Warn) the state-contract
probe is still invoked and an alert and an action are still emitted for an
invalid commit. -/
theorem claim1_invalid_commits_guard_ignores_own_level :
    (check_invalid_commits config_commit_disabled probes_invalid_commit
        100).probe_called = true ∧
    (check_invalid_commits config_commit_disabled probes_invalid_commit
        100).alerts =
      [{ name := "Invalid commit was made on the state contract",
         description :=
           "An invalid commit was made on the state contract. Hash: " ++ "0xabc",
         level := AlertLevel.none }] ∧
    (check_invalid_commits config_commit_disabled probes_invalid_commit
        100).actions =
      [{ action := EthereumAction.pauseAll, alert_level := AlertLevel.none }] :=
  ⟨rfl, rfl, rfl⟩

/-- C2 counterexample: the watermark is overwritten with whatever height the
chain probe returns, so from the initial watermark for startup height 10000
(namely 2800) a single successful iteration whose probe answers height 0
drives the watermark strictly down, refuting monotonicity under every
sequence of probed heights. -/
theorem claim2_counterexample_watermark_decreases :
    (check_invalid_commits config_watch_active probes_height_drop
        (initial_commit_check_block 10000)).last_commit_check_block <
      initial_commit_check_block 10000 := by
  decide

/-- C2 (amended): the watermark starts at max(height, 7200) - 7200; an
iteration whose height probe fails leaves it unchanged; and an iteration
never decreases it provided the successfully probed height is at least the
prior watermark value. -/
theorem claim2_watermark_behavior :
    (∀ latest_block : Nat,
      initial_commit_check_block latest_block = max latest_block 7200 - 7200) ∧
    (∀ (cfg : EthereumClientWatcher) (p : CommitProbes) (w : Nat) (e : String),
      p.get_latest_block_number = Except.error e →
      (check_invalid_commits cfg p w).last_commit_check_block = w) ∧
    (∀ (cfg : EthereumClientWatcher) (p : CommitProbes) (w : Nat),
      (∀ h, p.get_latest_block_number = Except.ok h → w ≤ h) →
      w ≤ (check_invalid_commits cfg p w).last_commit_check_block) := by
  refine ⟨fun _ => rfl, ?_, ?_⟩
  · intro cfg p w e he
    unfold check_invalid_commits
    split
    · rfl
    · cases hc : p.get_latest_commits with
      | error e2 => simp [hc]
      | ok hashes => simp [hc, he]
  · intro cfg p w hle
    unfold check_invalid_commits
    split
    · exact le_refl w
    · cases hc : p.get_latest_commits with
      | error e2 => simp [hc]
      | ok hashes =>
        cases hn : p.get_latest_block_number with
        | error e2 => simp [hc, hn]
        | ok h => simpa [hc, hn] using hle h hn

/-- Witness for C2 (amended) at concrete inputs: startup height 10000, a
failing height probe leaving watermark 42 unchanged, and a probe answering
height 100 not decreasing watermark 42. -/
theorem claim2_watermark_behavior_witness :
    initial_commit_check_block 10000 = max 10000 7200 - 7200 ∧
    (check_invalid_commits config_watch_active probes_height_err
        42).last_commit_check_block = 42 ∧
    (42 : Nat) ≤ (check_invalid_commits config_watch_active probes_height_100
        42).last_commit_check_block :=
  ⟨claim2_watermark_behavior.1 10000,
   claim2_watermark_behavior.2.1 config_watch_active probes_height_err 42
     "rpc down" rfl,
   claim2_watermark_behavior.2.2 config_watch_active probes_height_100 42
     (by
       intro h hh
       simp only [probes_height_100] at hh
       cases hh
       decide)⟩

/-- C3 counterexample: when the alert queue loses all producers, the alert
consumer worker of start_alert_handling_thread produces no effect at all:
it neither logs an error nor terminates the process (and even the action
worker never terminates the process). -/
theorem claim3_counterexample_alert_worker_silent :
    alert_worker_on_channel_closed = [] ∧
    WorkerEffect.terminateProcess ∉ action_worker_on_channel_closed := by
  refine ⟨rfl, ?_⟩
  intro h
  simp [action_worker_on_channel_closed] at h

/-- C3 (amended): on losing all producers the alert consumer simply exits
its receive loop with no observable effect, while the action consumer sends
one Error-level alert and panics its own task (which is not a process
exit). -/
theorem claim3_worker_channel_closed_behavior :
    alert_worker_on_channel_closed = [] ∧
    action_worker_on_channel_closed =
      [WorkerEffect.alertSend THREAD_CONNECTIONS_ERR AlertLevel.error
          AlertType.EthereumActionsThreadFailed,
       WorkerEffect.taskPanic THREAD_CONNECTIONS_ERR] :=
  ⟨rfl, rfl⟩

/-- C6: pause_contract first emits the Info attempting-pause alert and then
exactly one outcome alert under the fixed 30-second timeout: Info success
on Ok, the error message at the escalation level on Err, and a timed-out
alert at the escalation level (with no success alert) on timeout. -/
theorem claim6_pause_contract_outcomes (contract_name msg : String)
    (lvl : AlertLevel) :
    pause_timeout_seconds = 30 ∧
    pause_contract contract_name PauseOutcome.ok lvl =
      [{ text := "Pausing " ++ contract_name ++ " contract.",
         level := AlertLevel.info,
         alert_type := AlertType.EthereumTryPauseContract },
       { text := "Successfully paused " ++ contract_name ++ " contract.",
         level := AlertLevel.info,
         alert_type := AlertType.EthereumSuccessPauseContract }] ∧
    pause_contract contract_name (PauseOutcome.err msg) lvl =
      [{ text := "Pausing " ++ contract_name ++ " contract.",
         level := AlertLevel.info,
         alert_type := AlertType.EthereumTryPauseContract },
       { text := msg, level := lvl,
         alert_type := AlertType.EthereumFailPauseContract }] ∧
    pause_contract contract_name PauseOutcome.timeout lvl =
      [{ text := "Pausing " ++ contract_name ++ " contract.",
         level := AlertLevel.info,
         alert_type := AlertType.EthereumTryPauseContract },
       { text := "Timeout while pausing " ++ contract_name ++ " contract.",
         level := lvl,
         alert_type := AlertType.EthereumTimeoutPauseContract }] :=
  ⟨rfl, rfl, rfl, rfl⟩

/-- C7: PauseAll awaits the state, gateway and portal pauses sequentially
and independently; all three are attempted, and with outcomes Ok, Err, Ok
the outcome alerts are success, failure, success in that resource order. -/
theorem claim7_pause_all_sequential_independent (msg : String)
    (lvl : AlertLevel) :
    (handle_action EthereumAction.pauseAll PauseOutcome.ok
        (PauseOutcome.err msg) PauseOutcome.ok lvl).2 =
      ["state", "gateway", "portal"] ∧
    ((handle_action EthereumAction.pauseAll PauseOutcome.ok
        (PauseOutcome.err msg) PauseOutcome.ok lvl).1.filter
          is_outcome_alert) =
      [{ text := "Successfully paused " ++ "state" ++ " contract.",
         level := AlertLevel.info,
         alert_type := AlertType.EthereumSuccessPauseContract },
       { text := msg, level := lvl,
         alert_type := AlertType.EthereumFailPauseContract },
       { text := "Successfully paused " ++ "portal" ++ " contract.",
         level := AlertLevel.info,
         alert_type := AlertType.EthereumSuccessPauseContract }] :=
  ⟨rfl, rfl⟩

/-- C8: an alert at level None is inert in handle_alert: no local log
entry, no external page, and no dispatched action, for every cache state
and every time. -/
theorem claim8_none_level_inert (text : String) (ty : AlertType)
    (cache : AlertCache) (now system_now expiry allowed : Nat) :
    (handle_alert { text := text, level := AlertLevel.none, alert_type := ty }
        cache now system_now expiry allowed).pages = [] ∧
    (handle_alert { text := text, level := AlertLevel.none, alert_type := ty }
        cache now system_now expiry allowed).logs = [] ∧
    (handle_alert { text := text, level := AlertLevel.none, alert_type := ty }
        cache now system_now expiry allowed).dispatched_actions = [] := by
  cases hc : cacheLookup (cacheRetainLive cache now) ty with
  | none => simp [handle_alert, hc]
  | some e => by_cases hle : e ≤ now <;> simp [handle_alert, hc, hle]

/-- C4: with both alerts at Warn or Error and after the allowed alerting
start time, starting from no live dedup entry for the category: two alerts
of the same category are paged once when less than TTL apart and twice when
at least TTL apart, are always both logged locally, and the duplicate does
not refresh the entry expiry (it stays at first-seen time plus TTL). -/
theorem claim4_dedup_window (p1 p2 : AlertParams) (cache : AlertCache)
    (t1 t2 s1 s2 expiry allowed : Nat)
    (hty : p2.alert_type = p1.alert_type)
    (hfresh : cacheLookup (cacheRetainLive cache t1) p1.alert_type =
      Option.none)
    (hl1 : p1.level = AlertLevel.warn ∨ p1.level = AlertLevel.error)
    (hl2 : p2.level = AlertLevel.warn ∨ p2.level = AlertLevel.error)
    (hs1 : allowed ≤ s1) (hs2 : allowed ≤ s2) :
    (handle_alert p1 cache t1 s1 expiry allowed).pages.length +
        (handle_alert p2 (handle_alert p1 cache t1 s1 expiry allowed).cache
          t2 s2 expiry allowed).pages.length =
      (if t2 < t1 + expiry then 1 else 2) ∧
    (handle_alert p1 cache t1 s1 expiry allowed).logs.length +
        (handle_alert p2 (handle_alert p1 cache t1 s1 expiry allowed).cache
          t2 s2 expiry allowed).logs.length = 2 ∧
    (t2 < t1 + expiry →
      cacheLookup (handle_alert p2 (handle_alert p1 cache t1 s1 expiry
          allowed).cache t2 s2 expiry allowed).cache p1.alert_type =
        Option.some (t1 + expiry)) := by
  have hne1 : p1.level ≠ AlertLevel.none := by
    rcases hl1 with h | h <;> simp [h]
  have hne2 : p2.level ≠ AlertLevel.none := by
    rcases hl2 with h | h <;> simp [h]
  have h1 := handle_alert_fresh p1 cache t1 s1 expiry allowed hfresh hne1
  have hp1 : (handle_alert p1 cache t1 s1 expiry allowed).pages =
      [(pagerduty_severity p1.level, p1.text)] := by
    simp only [h1]
    exact if_pos ⟨hs1, hl1⟩
  have hc1 : (handle_alert p1 cache t1 s1 expiry allowed).cache =
      cacheInsert (cacheRetainLive cache t1) p1.alert_type (t1 + expiry) := by
    simp only [h1]
  have hg1 : (handle_alert p1 cache t1 s1 expiry allowed).logs =
      [(p1.level, p1.text)] := by
    simp only [h1]
  by_cases hlt : t2 < t1 + expiry
  · have hlook2 : cacheLookup (cacheRetainLive
        (handle_alert p1 cache t1 s1 expiry allowed).cache t2) p2.alert_type =
        Option.some (t1 + expiry) := by
      rw [hc1, cacheRetainLive_cacheInsert_keep _ _ _ _ hlt, hty,
        cacheLookup_cons_self]
    have h2 := handle_alert_dup p2 _ t2 s2 expiry allowed (t1 + expiry)
      hlook2 hlt
    refine ⟨?_, ?_, ?_⟩
    · simp [hp1, h2, hlt]
    · simp [hg1, h2, hne2]
    · intro _
      simp only [h2]
      rw [hc1, cacheRetainLive_cacheInsert_keep _ _ _ _ hlt,
        cacheLookup_cons_self]
  · have hlook2 : cacheLookup (cacheRetainLive
        (handle_alert p1 cache t1 s1 expiry allowed).cache t2) p2.alert_type =
        Option.none := by
      rw [hc1, cacheRetainLive_cacheInsert_drop _ _ _ _ hlt, hty]
      exact cacheLookup_retainLive_filterNe _ _ _
    have h2 := handle_alert_fresh p2 _ t2 s2 expiry allowed hlook2 hne2
    have hp2 : (handle_alert p2 (handle_alert p1 cache t1 s1 expiry
        allowed).cache t2 s2 expiry allowed).pages =
        [(pagerduty_severity p2.level, p2.text)] := by
      simp only [h2]
      exact if_pos ⟨hs2, hl2⟩
    refine ⟨?_, ?_, fun h => absurd h hlt⟩
    · simp [hp1, hp2, hlt]
    · simp [hg1, h2]

/-- Witness for C4 at concrete inputs: category FuelConnection, TTL 10,
first alert at instant 0, second at instant 1 (inside the window). -/
theorem claim4_dedup_window_witness :
    ((1 : Nat) < 0 + 10 ∧
      cacheLookup (cacheRetainLive [] 0) alert_warn_a.alert_type =
        Option.none) ∧
    ((handle_alert alert_warn_a [] 0 5 10 5).pages.length +
        (handle_alert alert_error_b
          (handle_alert alert_warn_a [] 0 5 10 5).cache
          1 5 10 5).pages.length =
      (if (1 : Nat) < 0 + 10 then 1 else 2) ∧
     (handle_alert alert_warn_a [] 0 5 10 5).logs.length +
        (handle_alert alert_error_b
          (handle_alert alert_warn_a [] 0 5 10 5).cache
          1 5 10 5).logs.length = 2 ∧
     ((1 : Nat) < 0 + 10 →
       cacheLookup (handle_alert alert_error_b
          (handle_alert alert_warn_a [] 0 5 10 5).cache
          1 5 10 5).cache alert_warn_a.alert_type =
        Option.some (0 + 10))) :=
  ⟨⟨by decide, rfl⟩,
   claim4_dedup_window alert_warn_a alert_error_b
     [] 0 1 5 5 10 5 rfl rfl (Or.inl rfl) (Or.inr rfl)
     (Nat.le_refl 5) (Nat.le_refl 5)⟩

/-- C5: the allowed alerting start time is fixed once at construction as
the construction-time clock plus min_duration_from_start_to_err, and a
Warn- or Error-level alert processed while the clock is before the allowed
start time is never paged externally regardless of dedup state, but is
still logged locally at its level. -/
theorem claim5_startup_grace (config : AlerterConfig) (construction_now : Nat)
    (params : AlertParams) (cache : AlertCache)
    (now system_now expiry allowed : Nat)
    (hlvl : params.level = AlertLevel.warn ∨ params.level = AlertLevel.error)
    (hgrace : system_now < allowed) :
    (WatchtowerAlerter.new config construction_now).allowed_alerting_start_time =
      construction_now + config.min_duration_from_start_to_err ∧
    (handle_alert params cache now system_now expiry allowed).pages = [] ∧
    (handle_alert params cache now system_now expiry allowed).logs =
      [(params.level, params.text)] := by
  have hne : params.level ≠ AlertLevel.none := by
    rcases hlvl with h | h <;> simp [h]
  have hnotle : ¬ allowed ≤ system_now := Nat.not_le.mpr hgrace
  refine ⟨rfl, ?_, ?_⟩ <;>
  cases hc : cacheLookup (cacheRetainLive cache now) params.alert_type with
  | none =>
    rw [handle_alert_fresh params cache now system_now expiry allowed hc
      hne] <;>
    simp [hnotle]
  | some e =>
    rw [handle_alert_dup params cache now system_now expiry allowed e hc
      (cacheLookup_retainLive_lt hc)] <;>
    simp [hne]

/-- Witness for C5 at concrete inputs: grace period 7, clock 0, a Warn
alert on an empty cache. -/
theorem claim5_startup_grace_witness :
    ((alert_warn_w.level = AlertLevel.warn ∨
        alert_warn_w.level = AlertLevel.error) ∧
      (0 : Nat) < 7) ∧
    ((WatchtowerAlerter.new
        { alert_cache_expiry := 10, min_duration_from_start_to_err := 7 }
        0).allowed_alerting_start_time = 0 + 7 ∧
     (handle_alert alert_warn_w [] 0 0 10 7).pages = [] ∧
     (handle_alert alert_warn_w [] 0 0 10 7).logs =
       [(alert_warn_w.level, alert_warn_w.text)]) :=
  ⟨⟨Or.inl rfl, by decide⟩,
   claim5_startup_grace
     { alert_cache_expiry := 10, min_duration_from_start_to_err := 7 } 0
     alert_warn_w [] 0 0 10 7 (Or.inl rfl) (by decide)⟩

/-- C10: when no live dedup entry exists for the category, handle_alert
inserts the entry with expiry now plus TTL before evaluating the level or
the start-time gate (so even a None-level or grace-period alert creates
it), and a subsequent alert of the same category within the TTL is not
paged externally. -/
theorem claim10_insert_before_level_gate (params q : AlertParams)
    (cache : AlertCache) (now system_now t2 s2 expiry allowed : Nat)
    (hfresh : cacheLookup (cacheRetainLive cache now) params.alert_type =
      Option.none)
    (hq : q.alert_type = params.alert_type)
    (ht2 : t2 < now + expiry) :
    cacheLookup (handle_alert params cache now system_now expiry allowed).cache
        params.alert_type = Option.some (now + expiry) ∧
    (handle_alert q (handle_alert params cache now system_now expiry
        allowed).cache t2 s2 expiry allowed).pages = [] := by
  have hcache := handle_alert_fresh_cache params cache now system_now expiry
    allowed hfresh
  constructor
  · rw [hcache, cacheLookup_cacheInsert_self]
  · have hlook : cacheLookup (cacheRetainLive
        (handle_alert params cache now system_now expiry allowed).cache t2)
        q.alert_type = Option.some (now + expiry) := by
      rw [hcache, cacheRetainLive_cacheInsert_keep _ _ _ _ ht2, hq,
        cacheLookup_cons_self]
    rw [handle_alert_dup q _ t2 s2 expiry allowed (now + expiry) hlook ht2]

/-- Witness for C10 at concrete inputs: a None-level alert on an empty
cache creates the entry and suppresses a later Error alert of the same
category inside the TTL even though the None alert itself was never logged
or paged. -/
theorem claim10_insert_before_level_gate_witness :
    ((3 : Nat) < 0 + 10) ∧
    (cacheLookup (handle_alert alert_none_n [] 0 99 10 0).cache
        alert_none_n.alert_type = Option.some (0 + 10) ∧
     (handle_alert alert_error_e
        (handle_alert alert_none_n [] 0 99 10 0).cache
        3 99 10 0).pages = []) :=
  ⟨by decide,
   claim10_insert_before_level_gate alert_none_n alert_error_e
     [] 0 99 3 99 10 0 rfl rfl (by decide)⟩

/-- C9: each pausable contract constructed read-only (no signing key, as
StateContract::new derives read_only from the absent wallet key) makes
pause() return the distinguishable not-configured error without touching
the network, whatever the state of the underlying contract binding. -/
theorem claim9_pause_read_only_fails_fast (call_result : Except String Unit)
    (contract : Option (Except String Unit)) :
    state_contract_read_only Option.none = true ∧
    (state_contract_pause (state_contract_read_only Option.none)
        call_result).result =
      Except.error "Ethereum account not configured." ∧
    (state_contract_pause (state_contract_read_only Option.none)
        call_result).network_call_made = false ∧
    (portal_contract_pause true contract).result =
      Except.error "Ethereum account not configured." ∧
    (portal_contract_pause true contract).network_call_made = false ∧
    (gateway_contract_pause true contract).result =
      Except.error "Ethereum account not configured." ∧
    (gateway_contract_pause true contract).network_call_made = false :=
  ⟨rfl, rfl, rfl, rfl, rfl, rfl, rfl⟩

end Watchtower
